import Mathlib

/-!
Verification of the telepush message client (`src/index.ts`).

The client is a single-shot HTTP wrapper: the constructor validates the
configuration and normalizes the base URL; `push` validates the text,
builds a JSON payload, resolves a timeout, performs one POST, and
normalizes every failure into a `TelepushError`.

The embedding below mirrors the TypeScript source:
* `mkTelepush` embeds the `Telepush` constructor (index.ts 106-125);
* `buildPayload` embeds the payload construction (index.ts 142-158);
* `effectiveTimeoutMs` / `armTimer` embed the timeout resolution and the
  `setTimeout` guard (index.ts 160-166);
* `handleResponse` embeds the response interpretation inside the `try`
  block (index.ts 183-207);
* `catchHandler` embeds the `catch` clause (index.ts 208-215);
* `push` ties these together and records, in a `PushTrace`, which request
  body was built (none when validation rejects before the network phase)
  and whether the cancellation timer was armed and cleared; the
  `timerCleared` field mirrors the `finally` clause (index.ts 216-218),
  which runs on every exit of the `try`/`catch` body and clears the timer
  exactly when one was set.

JavaScript `undefined`/`null` option and response fields are modelled as
`Option.none`; a thrown JavaScript value is modelled by `Thrown`; the
outcome of `fetch` + `response.json()` is modelled by `FetchOutcome`.
-/

/-- A JSON scalar as it appears in the request payload. -/
inductive JsonVal where
  | str (s : String)
  | int (n : Int)
  | bool (b : Bool)
deriving DecidableEq

/-- `chatId: string | number` from `TelepushConfig`. -/
inductive ChatId where
  | str (s : String)
  | num (n : Int)
deriving DecidableEq

/-- The JSON value placed under the `chat_id` key. -/
def ChatId.toJson : ChatId → JsonVal
  | .str s => .str s
  | .num n => .int n

/-- `parseMode?: "Markdown" | "MarkdownV2" | "HTML"`. Every value of this
union is a non-empty string, so the source's truthiness test
`if (options.parseMode)` coincides with presence. -/
inductive ParseMode where
  | markdown
  | markdownV2
  | html
deriving DecidableEq

/-- The wire string for a parse mode. -/
def ParseMode.toWire : ParseMode → String
  | .markdown => "Markdown"
  | .markdownV2 => "MarkdownV2"
  | .html => "HTML"

/-- `PushOptions` (index.ts 30-48); absent fields are `none`. -/
structure PushOptions where
  parseMode : Option ParseMode
  disableNotification : Option Bool
  protectContent : Option Bool
  replyToMessageId : Option Int
  messageThreadId : Option Int
  disableWebPagePreview : Option Bool
  timeoutMs : Option Int
deriving DecidableEq

/-- The `{}` default of `push`: no option set. -/
def noOptions : PushOptions := ⟨none, none, none, none, none, none, none⟩

/-- `SendMessageResult` (index.ts 67-74). -/
structure SendMessageResult where
  message_id : Int
  date : Int
  text : Option String
deriving DecidableEq

/-- `TelegramResponse<SendMessageResult>` (index.ts 53-62). -/
structure TelegramResponse where
  ok : Bool
  result : Option SendMessageResult
  description : Option String
  error_code : Option Int
deriving DecidableEq

/-- `TelepushError` (index.ts 79-91): message plus optional HTTP status
and optional Telegram error code. -/
structure TelepushError where
  message : String
  status : Option Nat
  code : Option Int
deriving DecidableEq

/-- `TelepushConfig` (index.ts 4-25). `botToken` is declared `string` but
the constructor guards absence at runtime (`!config?.botToken`), so the
domain here is `Option String` with `none` for `undefined`/`null`;
likewise `chatId`'s `none` covers both `undefined` and `null`. -/
structure TelepushConfig where
  botToken : Option String
  chatId : Option ChatId
  apiBaseUrl : Option String
  defaultTimeoutMs : Option Int
deriving DecidableEq

/-- The state a successfully constructed `Telepush` instance holds
(index.ts 97-100). -/
structure Telepush where
  botToken : String
  chatId : ChatId
  apiBaseUrl : String
  defaultTimeoutMs : Option Int
deriving DecidableEq

/-- Outcome of the constructor: the instance, or the thrown error. -/
inductive CtorResult where
  | ok (client : Telepush)
  | thrown (e : TelepushError)
deriving DecidableEq

/-- `(config.apiBaseUrl ?? "https://api.telegram.org").replace(/\/$/, "")`:
the regex removes exactly one trailing `/` when present. -/
def stripTrailingSlash (s : String) : String :=
  match s.data.getLast? with
  | some '/' => ⟨s.data.dropLast⟩
  | _ => s

/-- The `Telepush` constructor (index.ts 106-125): reject a falsy
`botToken` (absent or `""`), reject an absent, `null` or `""` `chatId`
(the strict `=== ""` comparison lets the number `0` through), then store
the fields with the base URL normalized. -/
def mkTelepush (config : TelepushConfig) : CtorResult :=
  match config.botToken with
  | none => .thrown ⟨"botToken is required", none, none⟩
  | some tok =>
    if tok = "" then .thrown ⟨"botToken is required", none, none⟩
    else
      match config.chatId with
      | none => .thrown ⟨"chatId is required", none, none⟩
      | some cid =>
        if cid = ChatId.str "" then .thrown ⟨"chatId is required", none, none⟩
        else
          .ok ⟨tok, cid,
               stripTrailingSlash (config.apiBaseUrl.getD "https://api.telegram.org"),
               config.defaultTimeoutMs⟩

/-- JavaScript `String.prototype.trim`, modelled over the character list
(the core ASCII whitespace set of `Char.isWhitespace`; the source only
uses it to test emptiness-after-trim). -/
def jsTrim (s : String) : String :=
  ⟨((s.data.dropWhile Char.isWhitespace).reverse.dropWhile Char.isWhitespace).reverse⟩

/-- The request payload as the ordered key/value list the source builds
(index.ts 142-158): `chat_id` and `text` always, then each option mapped
to its wire key when set. `parse_mode` uses the source's truthiness test,
which on the `ParseMode` union equals presence; the other five use
`!== undefined`, so an explicit `false` or `0` is still included. -/
def buildPayload (chatId : ChatId) (text : String) (options : PushOptions) :
    List (String × JsonVal) :=
  [("chat_id", chatId.toJson), ("text", .str text)]
  ++ (match options.parseMode with
      | some pm => [("parse_mode", .str pm.toWire)]
      | none => [])
  ++ (match options.disableNotification with
      | some b => [("disable_notification", .bool b)]
      | none => [])
  ++ (match options.protectContent with
      | some b => [("protect_content", .bool b)]
      | none => [])
  ++ (match options.replyToMessageId with
      | some n => [("reply_to_message_id", .int n)]
      | none => [])
  ++ (match options.messageThreadId with
      | some n => [("message_thread_id", .int n)]
      | none => [])
  ++ (match options.disableWebPagePreview with
      | some b => [("disable_web_page_preview", .bool b)]
      | none => [])

/-- `options.timeoutMs ?? this.defaultTimeoutMs` (index.ts 161). -/
def effectiveTimeoutMs (optTimeout cfgTimeout : Option Int) : Option Int :=
  match optTimeout with
  | some t => some t
  | none => cfgTimeout

/-- `if (timeoutMs && timeoutMs > 0)` (index.ts 164): the timer is armed
when the resolved value is present, truthy (non-zero) and positive. -/
def armTimer (timeoutMs : Option Int) : Bool :=
  match timeoutMs with
  | none => false
  | some t => decide (t ≠ 0 ∧ 0 < t)

/-- Outcome of the `push` call: the returned result or the thrown error. -/
inductive PushResult where
  | ok (r : SendMessageResult)
  | error (e : TelepushError)
deriving DecidableEq

/-- `fetch`'s HTTP-level success flag: `response.ok` is true exactly for
status 200-299. -/
def responseOk (status : Nat) : Bool :=
  200 ≤ status && status ≤ 299

/-- Interpretation of a decoded response inside the `try` block
(index.ts 183-207): non-2xx first, then `ok: false`, then a missing
`result` (a present `result` is an object, hence truthy, so `!data.result`
tests absence), else success. -/
def handleResponse (status : Nat) (data : TelegramResponse) : PushResult :=
  if ¬ responseOk status then
    .error ⟨data.description.getD ("HTTP " ++ toString status), some status, data.error_code⟩
  else if data.ok = false then
    .error ⟨data.description.getD "Telegram API error", some status, data.error_code⟩
  else
    match data.result with
    | none => .error ⟨"Telegram API returned no result", some status, data.error_code⟩
    | some r => .ok r

/-- A JavaScript value thrown inside the `try` block: a `TelepushError`
(one of the three thrown by the response interpretation), some other
`Error` instance with its `name` and `message`, or a non-`Error` value. -/
inductive Thrown where
  | telepushErr (e : TelepushError)
  | err (name : String) (msg : String)
  | nonError
deriving DecidableEq

/-- The `catch` clause (index.ts 208-215): a `TelepushError` is re-thrown
unchanged; an `Error` named `AbortError` becomes the fixed timeout error;
any other `Error` is wrapped keeping its message; a non-`Error` value
becomes `"Unknown error"`. -/
def catchHandler (t : Thrown) : TelepushError :=
  match t with
  | .telepushErr e => e
  | .err name msg =>
    if name = "AbortError" then ⟨"Request timed out", none, none⟩
    else ⟨msg, none, none⟩
  | .nonError => ⟨"Unknown error", none, none⟩

/-- What the transport phase (`await fetch` + `await response.json()`)
delivers: a decoded response, or a thrown value. -/
inductive FetchOutcome where
  | response (status : Nat) (data : TelegramResponse)
  | thrown (t : Thrown)
deriving DecidableEq

/-- Observable record of one `push` call: its outcome, the request body
that was built (`none` when validation rejected the call before the
network phase), and the timer lifecycle. -/
structure PushTrace where
  result : PushResult
  requestBody : Option (List (String × JsonVal))
  timerArmed : Bool
  timerCleared : Bool
deriving DecidableEq

/-- `Telepush.push` (index.ts 134-219) against a given transport outcome:
validate the text (`!text || text.trim().length === 0`), build the
payload, resolve the timeout and arm the timer, then run the `try` body
under the `catch` clause; the `finally` clause clears the timer exactly
when one was armed, on every exit of the request phase. -/
def push (c : Telepush) (text : String) (options : PushOptions)
    (outcome : FetchOutcome) : PushTrace :=
  if text = "" ∨ (jsTrim text).length = 0 then
    ⟨.error ⟨"text must be a non-empty string", none, none⟩, none, false, false⟩
  else
    let payload := buildPayload c.chatId text options
    let armed := armTimer (effectiveTimeoutMs options.timeoutMs c.defaultTimeoutMs)
    let result : PushResult :=
      match outcome with
      | .response status data => handleResponse status data
      | .thrown t => .error (catchHandler t)
    ⟨result, some payload, armed, armed⟩

/-! ## Helper lemmas -/

/-- Unfolding of `push` when the text passes validation. -/
lemma push_eq_of_valid (c : Telepush) (text : String) (options : PushOptions)
    (outcome : FetchOutcome) (h : ¬(text = "" ∨ (jsTrim text).length = 0)) :
    push c text options outcome =
      ⟨(match outcome with
        | .response status data => handleResponse status data
        | .thrown t => .error (catchHandler t)),
       some (buildPayload c.chatId text options),
       armTimer (effectiveTimeoutMs options.timeoutMs c.defaultTimeoutMs),
       armTimer (effectiveTimeoutMs options.timeoutMs c.defaultTimeoutMs)⟩ := by
  unfold push
  rw [if_neg h]

/-- Unfolding of `push` when validation rejects the text. -/
lemma push_eq_of_invalid (c : Telepush) (text : String) (options : PushOptions)
    (outcome : FetchOutcome) (h : text = "" ∨ (jsTrim text).length = 0) :
    push c text options outcome =
      ⟨.error ⟨"text must be a non-empty string", none, none⟩, none, false, false⟩ := by
  unfold push
  rw [if_pos h]

/-- The source's validation test is equivalent to emptiness after trim. -/
lemma validation_cond_iff (text : String) :
    (text = "" ∨ (jsTrim text).length = 0) ↔ jsTrim text = "" := by
  constructor
  · rintro (rfl | h)
    · rfl
    · cases hj : jsTrim text with
      | mk data =>
        rw [hj] at h
        simp only [String.length] at h
        rw [List.length_eq_zero] at h
        subst h
        rfl
  · intro h
    right
    rw [h]
    rfl

/-- Dropping one trailing slash appended by `push`. -/
lemma stripTrailingSlash_push (t : String) : stripTrailingSlash (t.push '/') = t := by
  have hdata : (t.push '/').data = t.data ++ ['/'] := by simp [String.push]
  unfold stripTrailingSlash
  rw [hdata]
  simp

/-- A string without a trailing slash is left unchanged. -/
lemma stripTrailingSlash_of_no_slash (u : String) (h : u.data.getLast? ≠ some '/') :
    stripTrailingSlash u = u := by
  unfold stripTrailingSlash
  split
  · next heq => exact absurd heq h
  · rfl

/-- The base URL a successfully constructed client stores. -/
lemma mk_ok_baseUrl (config : TelepushConfig) (client : Telepush)
    (h : mkTelepush config = .ok client) :
    client.apiBaseUrl = stripTrailingSlash (config.apiBaseUrl.getD "https://api.telegram.org") := by
  unfold mkTelepush at h
  split at h
  · exact CtorResult.noConfusion h
  · split at h
    · exact CtorResult.noConfusion h
    · split at h
      · exact CtorResult.noConfusion h
      · split at h
        · exact CtorResult.noConfusion h
        · injection h with h'
          rw [← h']

/-! ## Claim theorems -/

/-- C4: construction fails with a validation error (no HTTP status, no
remote error code) exactly when the token is empty or absent, or the chat
id is absent, null, or the empty string; the integer chat id `0` is
accepted. The embedded constructor consults no transport, so no network
activity can occur during construction. -/
theorem constructor_validation (config : TelepushConfig) :
    ((∃ e, mkTelepush config = .thrown e) ↔
      (config.botToken = none ∨ config.botToken = some "" ∨
       config.chatId = none ∨ config.chatId = some (ChatId.str ""))) ∧
    (∀ e, mkTelepush config = .thrown e → e.status = none ∧ e.code = none) ∧
    (∀ tok, config.botToken = some tok → tok ≠ "" →
      config.chatId = some (ChatId.num 0) → ∃ client, mkTelepush config = .ok client) := by
  obtain ⟨bt, cid, base, dt⟩ := config
  refine ⟨?_, ?_, ?_⟩
  · cases bt with
    | none => simp [mkTelepush]
    | some tok =>
      by_cases htok : tok = ""
      · subst htok
        simp [mkTelepush]
      · cases cid with
        | none => simp [mkTelepush, htok]
        | some c =>
          by_cases hc : c = ChatId.str ""
          · subst hc
            simp [mkTelepush, htok]
          · simp [mkTelepush, htok, hc]
  · intro e he
    unfold mkTelepush at he
    split at he
    · injection he with h'
      rw [← h']
      exact ⟨rfl, rfl⟩
    · split at he
      · injection he with h'
        rw [← h']
        exact ⟨rfl, rfl⟩
      · split at he
        · injection he with h'
          rw [← h']
          exact ⟨rfl, rfl⟩
        · split at he
          · injection he with h'
            rw [← h']
            exact ⟨rfl, rfl⟩
          · exact CtorResult.noConfusion he
  · intro tok htok hne hcid
    simp only at htok hcid
    subst htok
    subst hcid
    simp [mkTelepush, hne]

/-- C4 witness: a config with an absent chat id fails with a validation
error carrying neither status nor code, while the chat id `0` (with a
non-empty token) is accepted. -/
theorem constructor_validation_witness :
    (∃ e, mkTelepush ⟨some "t", none, none, none⟩ = .thrown e ∧
       e.status = none ∧ e.code = none) ∧
    mkTelepush ⟨some "t", some (.num 0), none, none⟩
      = .ok ⟨"t", .num 0, "https://api.telegram.org", none⟩ := by
  refine ⟨?_, by decide⟩
  obtain ⟨e, he⟩ := (constructor_validation ⟨some "t", none, none, none⟩).1.mpr
    (by simp)
  exact ⟨e, he, (constructor_validation ⟨some "t", none, none, none⟩).2.1 e he⟩

/-- C8: the stored base URL defaults to `https://api.telegram.org` when
`apiBaseUrl` is absent, and otherwise has exactly one trailing slash
removed when one is present (a value ending in `//` keeps one slash,
shown in the witness; a value with no trailing slash is unchanged). -/
theorem apiBaseUrl_normalized (config : TelepushConfig) (client : Telepush)
    (h : mkTelepush config = .ok client) :
    (config.apiBaseUrl = none → client.apiBaseUrl = "https://api.telegram.org") ∧
    (∀ t : String, config.apiBaseUrl = some (t.push '/') → client.apiBaseUrl = t) ∧
    (∀ u : String, config.apiBaseUrl = some u → u.data.getLast? ≠ some '/' →
      client.apiBaseUrl = u) := by
  have hb := mk_ok_baseUrl config client h
  refine ⟨?_, ?_, ?_⟩
  · intro hnone
    rw [hnone] at hb
    rw [hb]
    decide
  · intro t ht
    rw [ht] at hb
    simp only [Option.getD_some] at hb
    rw [hb]
    exact stripTrailingSlash_push t
  · intro u hu hlast
    rw [hu] at hb
    simp only [Option.getD_some] at hb
    rw [hb]
    exact stripTrailingSlash_of_no_slash u hlast

/-- C8 witness: a configured base URL ending in `//` is stored with
exactly one slash removed, keeping one trailing slash. -/
theorem apiBaseUrl_normalized_witness :
    mkTelepush ⟨some "t", some (.num 1), some "http://x//", none⟩
      = .ok ⟨"t", .num 1, "http://x/", none⟩ ∧
    Telepush.apiBaseUrl ⟨"t", .num 1, "http://x/", none⟩ = "http://x/" := by
  refine ⟨by decide, ?_⟩
  exact (apiBaseUrl_normalized ⟨some "t", some (.num 1), some "http://x//", none⟩
    ⟨"t", .num 1, "http://x/", none⟩ (by decide)).2.1 "http://x/" (by decide)

/-- C2: an optional wire key appears in the request body exactly when the
corresponding option field is set; a boolean explicitly set to `false` is
still included with value `false`; and with no options the body is
exactly the two required pairs, `chat_id` and `text`. -/
theorem payload_optional_fields (cid : ChatId) (text : String) (options : PushOptions) :
    (buildPayload cid text noOptions = [("chat_id", cid.toJson), ("text", .str text)]) ∧
    (("parse_mode" ∈ (buildPayload cid text options).map Prod.fst) ↔
      options.parseMode.isSome = true) ∧
    (("disable_notification" ∈ (buildPayload cid text options).map Prod.fst) ↔
      options.disableNotification.isSome = true) ∧
    (("protect_content" ∈ (buildPayload cid text options).map Prod.fst) ↔
      options.protectContent.isSome = true) ∧
    (("reply_to_message_id" ∈ (buildPayload cid text options).map Prod.fst) ↔
      options.replyToMessageId.isSome = true) ∧
    (("message_thread_id" ∈ (buildPayload cid text options).map Prod.fst) ↔
      options.messageThreadId.isSome = true) ∧
    (("disable_web_page_preview" ∈ (buildPayload cid text options).map Prod.fst) ↔
      options.disableWebPagePreview.isSome = true) ∧
    (∀ b, options.disableNotification = some b →
      ("disable_notification", JsonVal.bool b) ∈ buildPayload cid text options) := by
  refine ⟨rfl, ?_⟩
  obtain ⟨pm, dn, pc, rm, mt, dw, tm⟩ := options
  cases pm <;> cases dn <;> cases pc <;> cases rm <;> cases mt <;> cases dw <;>
    simp [buildPayload]

/-- C2 witness: with only `disableNotification := false` set, the body
keys include `disable_notification` (with value `false`) and no other
optional wire key; with no options, the body is exactly the required
pairs. -/
theorem payload_optional_fields_witness :
    buildPayload (.num 7) "hi" noOptions = [("chat_id", .int 7), ("text", .str "hi")] ∧
    ("disable_notification", JsonVal.bool false) ∈
      buildPayload (.num 7) "hi" ⟨none, some false, none, none, none, none, none⟩ ∧
    ¬ ("parse_mode" ∈
      (buildPayload (.num 7) "hi" ⟨none, some false, none, none, none, none, none⟩).map
        Prod.fst) := by
  refine ⟨(payload_optional_fields (.num 7) "hi" noOptions).1, ?_, ?_⟩
  · exact (payload_optional_fields (.num 7) "hi"
      ⟨none, some false, none, none, none, none, none⟩).2.2.2.2.2.2.2 false rfl
  · intro hmem
    have h := (payload_optional_fields (.num 7) "hi"
      ⟨none, some false, none, none, none, none, none⟩).2.1.mp hmem
    simp at h

/-- C1: when the call reaches the transport and it answers with a 2xx
status, `ok: true` and a present `result`, `push` succeeds and the
returned value carries the wire result's `message_id`, `date` and `text`
unchanged (the source returns `data.result` itself). -/
theorem push_success (c : Telepush) (text : String) (options : PushOptions)
    (status : Nat) (data : TelegramResponse) (r : SendMessageResult)
    (htext : ¬(text = "" ∨ (jsTrim text).length = 0))
    (hstatus : responseOk status = true)
    (hok : data.ok = true) (hres : data.result = some r) :
    ∃ ret, (push c text options (.response status data)).result = .ok ret ∧
      ret.message_id = r.message_id ∧ ret.date = r.date ∧ ret.text = r.text := by
  refine ⟨r, ?_, rfl, rfl, rfl⟩
  rw [push_eq_of_valid c text options _ htext]
  simp [handleResponse, hstatus, hok, hres]

/-- C1 witness: the concrete round-trip of property P5 — HTTP 200 with
body `{ok: true, result: {message_id: 1, date: 1700000000, text:
"hello"}}` makes `push "hello"` return exactly that result. -/
theorem push_success_witness :
    (∃ ret, (push ⟨"tok", .num 7, "https://api.telegram.org", none⟩ "hello" noOptions
        (.response 200 ⟨true, some ⟨1, 1700000000, some "hello"⟩, none, none⟩)).result
          = .ok ret ∧
      ret.message_id = 1 ∧ ret.date = 1700000000 ∧ ret.text = some "hello") ∧
    (push ⟨"tok", .num 7, "https://api.telegram.org", none⟩ "hello" noOptions
        (.response 200 ⟨true, some ⟨1, 1700000000, some "hello"⟩, none, none⟩)).result
      = .ok ⟨1, 1700000000, some "hello"⟩ := by
  refine ⟨?_, by decide⟩
  exact push_success ⟨"tok", .num 7, "https://api.telegram.org", none⟩ "hello" noOptions
    200 ⟨true, some ⟨1, 1700000000, some "hello"⟩, none, none⟩ ⟨1, 1700000000, some "hello"⟩
    (by decide) (by decide) rfl rfl

/-- C3 counterexample: at HTTP 200 with body `{ok: false}` and no
description, the code's fallback message is `"Telegram API error"`, not
the `"remote API error"` the claim states (and on a missing result the
message is `"Telegram API returned no result"`, not `"remote API returned
no result"`). -/
theorem remote_error_fallback_counterexample :
    handleResponse 200 ⟨false, none, none, none⟩
      = .error ⟨"Telegram API error", some 200, none⟩ ∧
    ("Telegram API error" : String) ≠ "remote API error" ∧
    handleResponse 200 ⟨true, none, none, none⟩
      = .error ⟨"Telegram API returned no result", some 200, none⟩ ∧
    ("Telegram API returned no result" : String) ≠ "remote API returned no result" := by
  refine ⟨by decide, by decide, by decide, by decide⟩

/-- C3 (amended): the decoded body is interpreted in order — non-2xx
status fails with `description` or else `"HTTP {status}"` plus the status
and `error_code`; else `ok: false` fails with `description` or else
`"Telegram API error"` plus the same fields; else an absent `result`
fails with `"Telegram API returned no result"` carrying the status (and
`error_code`). -/
theorem response_interpretation (status : Nat) (data : TelegramResponse) :
    (responseOk status = false →
      handleResponse status data
        = .error ⟨data.description.getD ("HTTP " ++ toString status),
                  some status, data.error_code⟩) ∧
    (responseOk status = true → data.ok = false →
      handleResponse status data
        = .error ⟨data.description.getD "Telegram API error",
                  some status, data.error_code⟩) ∧
    (responseOk status = true → data.ok = true → data.result = none →
      handleResponse status data
        = .error ⟨"Telegram API returned no result", some status, data.error_code⟩) := by
  refine ⟨?_, ?_, ?_⟩
  · intro h
    simp [handleResponse, h]
  · intro h hok
    simp [handleResponse, h, hok]
  · intro h hok hres
    simp [handleResponse, h, hok, hres]

/-- C3 witness: the three branches at concrete inputs — HTTP 400 with a
description surfaces it with status and code; HTTP 200 with `ok: false`
and no description falls back to the fixed message; HTTP 200 with `ok:
true` and no result fails with the no-result message at status 200. -/
theorem response_interpretation_witness :
    handleResponse 400 ⟨false, none, some "bad request", some 400⟩
      = .error ⟨"bad request", some 400, some 400⟩ ∧
    handleResponse 200 ⟨false, none, none, some 3⟩
      = .error ⟨"Telegram API error", some 200, some 3⟩ ∧
    handleResponse 200 ⟨true, none, none, none⟩
      = .error ⟨"Telegram API returned no result", some 200, none⟩ := by
  refine ⟨?_, ?_, ?_⟩
  · exact (response_interpretation 400 ⟨false, none, some "bad request", some 400⟩).1
      (by decide)
  · exact (response_interpretation 200 ⟨false, none, none, some 3⟩).2.1 (by decide) rfl
  · exact (response_interpretation 200 ⟨true, none, none, none⟩).2.2 (by decide) rfl rfl

/-- C5: `push` builds no request body (so no network call is made)
exactly when the text trims to the empty string, in which case it fails
with the fixed validation error carrying neither status nor code;
otherwise the body that is built carries the original untrimmed text
under the `text` key. -/
theorem text_validation (c : Telepush) (text : String) (options : PushOptions)
    (outcome : FetchOutcome) :
    ((push c text options outcome).requestBody = none ↔ jsTrim text = "") ∧
    (jsTrim text = "" →
      (push c text options outcome).result
        = .error ⟨"text must be a non-empty string", none, none⟩) ∧
    (jsTrim text ≠ "" →
      (push c text options outcome).requestBody
          = some (buildPayload c.chatId text options) ∧
      ("text", JsonVal.str text) ∈ buildPayload c.chatId text options) := by
  by_cases h : jsTrim text = ""
  · have hcond := (validation_cond_iff text).mpr h
    rw [push_eq_of_invalid c text options outcome hcond]
    simp [h]
  · have hcond : ¬(text = "" ∨ (jsTrim text).length = 0) :=
      fun hc => h ((validation_cond_iff text).mp hc)
    rw [push_eq_of_valid c text options outcome hcond]
    simp [h]
    simp [buildPayload]

/-- C5 witness: an all-whitespace text is rejected with the validation
error and no request body is built; a non-empty text has its original
form placed under the `text` key. -/
theorem text_validation_witness :
    (push ⟨"tok", .num 7, "https://api.telegram.org", none⟩ "  " noOptions
        (.thrown .nonError)).result
      = .error ⟨"text must be a non-empty string", none, none⟩ ∧
    (push ⟨"tok", .num 7, "https://api.telegram.org", none⟩ "  " noOptions
        (.thrown .nonError)).requestBody = none ∧
    ("text", JsonVal.str " hi ") ∈
      buildPayload (ChatId.num 7) " hi " noOptions := by
  refine ⟨?_, ?_, ?_⟩
  · exact (text_validation ⟨"tok", .num 7, "https://api.telegram.org", none⟩ "  "
      noOptions (.thrown .nonError)).2.1 (by decide)
  · exact (text_validation ⟨"tok", .num 7, "https://api.telegram.org", none⟩ "  "
      noOptions (.thrown .nonError)).1.mpr (by decide)
  · exact ((text_validation ⟨"tok", .num 7, "https://api.telegram.org", none⟩ " hi "
      noOptions (.thrown .nonError)).2.2 (by decide)).2

/-- C6: the effective timeout is `options.timeoutMs` whenever that field
is present (even when `0` or negative), else `config.defaultTimeoutMs`,
else none; and the cancellation timer is armed exactly when the effective
timeout is present and strictly positive. -/
theorem timeout_resolution (c : Telepush) (text : String) (options : PushOptions)
    (outcome : FetchOutcome) :
    (∀ t, options.timeoutMs = some t →
      effectiveTimeoutMs options.timeoutMs c.defaultTimeoutMs = some t) ∧
    (options.timeoutMs = none →
      effectiveTimeoutMs options.timeoutMs c.defaultTimeoutMs = c.defaultTimeoutMs) ∧
    (armTimer (effectiveTimeoutMs options.timeoutMs c.defaultTimeoutMs) = true ↔
      ∃ t, effectiveTimeoutMs options.timeoutMs c.defaultTimeoutMs = some t ∧ 0 < t) ∧
    (jsTrim text ≠ "" →
      (push c text options outcome).timerArmed
        = armTimer (effectiveTimeoutMs options.timeoutMs c.defaultTimeoutMs)) := by
  refine ⟨?_, ?_, ?_, ?_⟩
  · intro t ht
    simp [effectiveTimeoutMs, ht]
  · intro h
    simp [effectiveTimeoutMs, h]
  · cases heff : effectiveTimeoutMs options.timeoutMs c.defaultTimeoutMs with
    | none => simp [armTimer]
    | some t =>
      simp only [armTimer, decide_eq_true_eq, Option.some.injEq]
      constructor
      · rintro ⟨-, h2⟩
        exact ⟨t, rfl, h2⟩
      · rintro ⟨t', rfl, h2⟩
        exact ⟨by omega, h2⟩
  · intro h
    have hcond : ¬(text = "" ∨ (jsTrim text).length = 0) :=
      fun hc => h ((validation_cond_iff text).mp hc)
    rw [push_eq_of_valid c text options outcome hcond]

/-- C6 witness: an explicit `timeoutMs := 0` overrides a positive default
(effective timeout `0`, timer not armed), while an absent per-call value
falls back to the default `10`, arming the timer. -/
theorem timeout_resolution_witness :
    effectiveTimeoutMs (some 0) (some 10) = some 0 ∧
    (push ⟨"tok", .num 7, "https://api.telegram.org", some 10⟩ "hi"
        ⟨none, none, none, none, none, none, some 0⟩ (.thrown .nonError)).timerArmed
      = false ∧
    effectiveTimeoutMs none (some 10) = some 10 ∧
    (push ⟨"tok", .num 7, "https://api.telegram.org", some 10⟩ "hi"
        noOptions (.thrown .nonError)).timerArmed = true := by
  refine ⟨?_, by decide, ?_, ?_⟩
  · exact (timeout_resolution ⟨"tok", .num 7, "https://api.telegram.org", some 10⟩ "hi"
      ⟨none, none, none, none, none, none, some 0⟩ (.thrown .nonError)).1 0 rfl
  · exact (timeout_resolution ⟨"tok", .num 7, "https://api.telegram.org", some 10⟩ "hi"
      noOptions (.thrown .nonError)).2.1 rfl
  · rw [(timeout_resolution ⟨"tok", .num 7, "https://api.telegram.org", some 10⟩ "hi"
      noOptions (.thrown .nonError)).2.2.2 (by decide)]
    decide

/-- C7: when the timer is armed and the transport is aborted (the thrown
value is an `Error` named `AbortError`), `push` fails with exactly the
fixed message `"Request timed out"` and neither an HTTP status nor a
remote error code. -/
theorem timeout_error (c : Telepush) (text : String) (options : PushOptions)
    (msg : String)
    (htext : jsTrim text ≠ "")
    (_harmed : armTimer (effectiveTimeoutMs options.timeoutMs c.defaultTimeoutMs) = true) :
    (push c text options (.thrown (.err "AbortError" msg))).result
      = .error ⟨"Request timed out", none, none⟩ := by
  have hcond : ¬(text = "" ∨ (jsTrim text).length = 0) :=
    fun hc => htext ((validation_cond_iff text).mp hc)
  rw [push_eq_of_valid c text options _ hcond]
  simp [catchHandler]

/-- C7 witness: with a 10ms per-call timeout armed, an aborted transport
yields the fixed timeout error. -/
theorem timeout_error_witness :
    (push ⟨"tok", .num 7, "https://api.telegram.org", none⟩ "hi"
        ⟨none, none, none, none, none, none, some 10⟩
        (.thrown (.err "AbortError" "This operation was aborted"))).result
      = .error ⟨"Request timed out", none, none⟩ := by
  exact timeout_error ⟨"tok", .num 7, "https://api.telegram.org", none⟩ "hi"
    ⟨none, none, none, none, none, none, some 10⟩ "This operation was aborted"
    (by decide) (by decide)

/-- C9: on every exit path of `push` — success, remote rejection,
transport failure, timeout, or validation rejection — the timer is
cleared exactly when it was armed (the `finally` clause runs on every
exit of the request phase and clears the timer it finds armed), so no
timer outlives the call. -/
theorem timer_cleared (c : Telepush) (text : String) (options : PushOptions)
    (outcome : FetchOutcome) :
    (push c text options outcome).timerCleared = (push c text options outcome).timerArmed := by
  unfold push
  split
  · rfl
  · rfl

/-- C10: every failure of the request phase surfaces as a single
`TelepushError`: an error already of that kind (in particular the three
remote-rejection errors) passes through unchanged; an `Error` named
`AbortError` becomes the timeout error; any other `Error` keeps its
message with no status or code; a non-`Error` thrown value becomes
`"Unknown error"`. -/
theorem error_normalization (c : Telepush) (text : String) (options : PushOptions)
    (htext : jsTrim text ≠ "") :
    (∀ e, (push c text options (.thrown (.telepushErr e))).result = .error e) ∧
    (∀ msg, (push c text options (.thrown (.err "AbortError" msg))).result
      = .error ⟨"Request timed out", none, none⟩) ∧
    (∀ nm msg, nm ≠ "AbortError" →
      (push c text options (.thrown (.err nm msg))).result = .error ⟨msg, none, none⟩) ∧
    ((push c text options (.thrown .nonError)).result
      = .error ⟨"Unknown error", none, none⟩) ∧
    (∀ status data, (push c text options (.response status data)).result
      = handleResponse status data) := by
  have hcond : ¬(text = "" ∨ (jsTrim text).length = 0) :=
    fun hc => htext ((validation_cond_iff text).mp hc)
  refine ⟨?_, ?_, ?_, ?_, ?_⟩
  · intro e
    rw [push_eq_of_valid c text options _ hcond]
    rfl
  · intro msg
    rw [push_eq_of_valid c text options _ hcond]
    simp [catchHandler]
  · intro nm msg hnm
    rw [push_eq_of_valid c text options _ hcond]
    simp [catchHandler, hnm]
  · rw [push_eq_of_valid c text options _ hcond]
    rfl
  · intro status data
    rw [push_eq_of_valid c text options _ hcond]

/-- C10 witness: a thrown `TelepushError` passes through unchanged; a
non-abort transport `Error` keeps its message; a thrown non-`Error`
becomes `"Unknown error"`. -/
theorem error_normalization_witness :
    (push ⟨"tok", .num 7, "https://api.telegram.org", none⟩ "hi" noOptions
        (.thrown (.telepushErr ⟨"bad request", some 400, some 400⟩))).result
      = .error ⟨"bad request", some 400, some 400⟩ ∧
    (push ⟨"tok", .num 7, "https://api.telegram.org", none⟩ "hi" noOptions
        (.thrown (.err "TypeError" "fetch failed"))).result
      = .error ⟨"fetch failed", none, none⟩ ∧
    (push ⟨"tok", .num 7, "https://api.telegram.org", none⟩ "hi" noOptions
        (.thrown .nonError)).result
      = .error ⟨"Unknown error", none, none⟩ := by
  refine ⟨?_, ?_, ?_⟩
  · exact (error_normalization ⟨"tok", .num 7, "https://api.telegram.org", none⟩ "hi"
      noOptions (by decide)).1 ⟨"bad request", some 400, some 400⟩
  · exact (error_normalization ⟨"tok", .num 7, "https://api.telegram.org", none⟩ "hi"
      noOptions (by decide)).2.2.1 "TypeError" "fetch failed" (by decide)
  · exact (error_normalization ⟨"tok", .num 7, "https://api.telegram.org", none⟩ "hi"
      noOptions (by decide)).2.2.2.1
